import Mathlib

/-!
Verification of the OpenAI Responses API proxy (`src/proxy/app.py`).

The program is a FastAPI gateway that translates between a Chat-Completions
client and an upstream provider.  We embed its pure translation functions
(`map_model_name`, `convert_chat_to_responses_format`,
`convert_responses_to_chat_format`) and its request handlers (`health`,
`list_models`, `chat_completions`, and the streaming generator) as pure Lean
functions.  Python dicts are modelled as association lists of string keys
(first-match lookup, in-place value replacement on assignment, as Python dict
semantics guarantee for unique keys); JSON documents exchanged with the
upstream are modelled as JSON objects, matching the `Dict[str, Any]` type
annotations in the source.  The outcome of each outbound HTTP call is passed
to the handler as an explicit parameter, so a handler is a pure function of
its configuration, the inbound body, and the upstream's behaviour.
-/

/-- JSON values.  Numbers are modelled as integers; none of the proxy's logic
inspects numeric values, so float semantics are irrelevant here. -/
inductive Json where
  | null
  | bool (b : Bool)
  | num (n : Int)
  | str (s : String)
  | arr (elems : List Json)
  | obj (members : List (String × Json))

/-- A Python dict with string keys, as used for request and response bodies. -/
abbrev JsonObj := List (String × Json)

/-- Dictionary lookup: first pair whose key matches, mirroring `d[k]` /
`d.get(k)` on a Python dict (whose keys are unique). -/
def assocGet {α : Type} (k : String) : List (String × α) → Option α
  | [] => none
  | (k', v) :: rest => if k' = k then some v else assocGet k rest

/-- Dictionary assignment `d[k] = v`: replaces the value at the first
occurrence of `k`, appending the pair when the key is absent. -/
def setKey {α : Type} (k : String) (v : α) : List (String × α) → List (String × α)
  | [] => [(k, v)]
  | (k', v') :: rest => if k' = k then (k', v) :: rest else (k', v') :: setKey k v rest

/-- Membership test `k in d` on a Python dict. -/
def containsKey (k : String) (d : JsonObj) : Bool :=
  (assocGet k d).isSome

/-- Python truthiness of a JSON value (`if x:`): `None`, `False`, `0`, `""`,
`[]` and `{}` are falsy, everything else truthy. -/
def jsonTruthy : Json → Bool
  | .null => false
  | .bool b => b
  | .num n => n != 0
  | .str s => s != ""
  | .arr l => !l.isEmpty
  | .obj l => !l.isEmpty

/-- The module-level `MODEL_MAPPING` dict from `app.py` lines 27-32:
Chat Completions name → Responses API name. -/
def MODEL_MAPPING : List (String × String) :=
  [ ("chatgpt-4o-latest", "chatgpt-4o-latest")
  , ("gpt-4.1", "gpt-4.1")
  , ("gpt-5.2-chat-latest", "gpt-5.2-chat-latest") ]

/-- `map_model_name` (lines 35-37): `MODEL_MAPPING.get(model, model)`. -/
def map_model_name (model : String) : String :=
  (assocGet model MODEL_MAPPING).getD model

/-- Applying `map_model_name` to the JSON value stored under `"model"`.
The source annotates the argument as `str`; for a non-string hashable value
`MODEL_MAPPING.get(v, v)` returns `v` unchanged, since the keys are strings. -/
def mapModelValue : Json → Json
  | .str s => .str (map_model_name s)
  | v => v

/-- `convert_chat_to_responses_format` (lines 40-68): shallow-copies the
request dict and, when a `"model"` key is present, overwrites its value with
`map_model_name` of the old value. -/
def convert_chat_to_responses_format (chat_request : JsonObj) : JsonObj :=
  match assocGet "model" chat_request with
  | some v => setKey "model" (mapModelValue v) chat_request
  | none => chat_request

/-- `convert_responses_to_chat_format` (lines 71-83): when the response
already has a `"choices"` key it is returned as-is; the transformation branch
for other responses is a placeholder that also returns the input. -/
def convert_responses_to_chat_format (responses_response : JsonObj) : JsonObj :=
  if containsKey "choices" responses_response then responses_response
  else responses_response

/-- Observable result of a request handler: a JSON response with a status, an
`HTTPException` with a status and a `detail` string, a streaming response
whose deferred body computation either errors (with the upstream status) or
yields a chunk list, or an exception escaping the handler (which FastAPI turns
into a generic 500). -/
inductive HandlerResult where
  | json (status : Nat) (content : Json)
  | httpError (status : Nat) (detail : String)
  | streaming (status : Nat) (body : Except Nat (List (List Nat)))
  | uncaught (msg : String)

/-- Status code of a handler result; an uncaught exception is rendered by the
framework as a 500. -/
def resultStatus : HandlerResult → Nat
  | .json s _ => s
  | .httpError s _ => s
  | .streaming s _ => s
  | .uncaught _ => 500

/-- Outcome of one buffered outbound HTTP call: either a response (status
code, body text, and the result of parsing the body as JSON — parse failure
carries the decoder's message) or a transport-level failure (DNS, connection,
timeout) with its message. -/
inductive UpstreamResult where
  | response (status : Nat) (text : String) (body : Except String JsonObj)
  | transportError (msg : String)

/-- Upstream side of one streaming call: the response status and the sequence
of body chunks (byte strings) the upstream emits. -/
structure UpstreamStreamResponse where
  status : Nat
  chunks : List (List Nat)

/-- `raise_for_status` succeeds exactly on 2xx statuses. -/
def isSuccessStatus (status : Nat) : Prop :=
  200 ≤ status ∧ status < 300

instance (status : Nat) : Decidable (isSuccessStatus status) :=
  inferInstanceAs (Decidable (_ ∧ _))

/-- The chunk loop of `stream_generator` (lines 200-202):
`async for chunk: if chunk: yield chunk` — forwards each truthy (non-empty)
chunk, skips empty ones. -/
def relayChunks : List (List Nat) → List (List Nat)
  | [] => []
  | c :: rest => if c.isEmpty then relayChunks rest else c :: relayChunks rest

/-- `stream_generator` (lines 191-202): opens the upstream stream, calls
`response.raise_for_status()` — which raises, carrying the upstream status,
before any chunk is yielded when the status is not 2xx — and otherwise yields
the non-empty chunks in order. -/
def stream_generator (resp : UpstreamStreamResponse) : Except Nat (List (List Nat)) :=
  if isSuccessStatus resp.status then .ok (relayChunks resp.chunks)
  else .error resp.status

/-- The hardcoded `custom_models` list from `list_models` (lines 124-137). -/
def custom_models : List Json :=
  [ .obj [ ("id", .str "chatgpt-4o-latest"), ("object", .str "model")
         , ("created", .num 1700000000), ("owned_by", .str "openai") ]
  , .obj [ ("id", .str "gpt-4.1"), ("object", .str "model")
         , ("created", .num 1700000000), ("owned_by", .str "openai") ] ]

/-- `health` (lines 96-101): 500 when the API key is unset, otherwise a
healthy JSON body. -/
def health (apiKey : Option String) : HandlerResult :=
  match apiKey with
  | none => .httpError 500 "OPENAI_API_KEY not configured"
  | some _ => .json 200 (.obj [("status", .str "healthy")])

/-- `list_models` (lines 104-147): 401 without an API key; on any
`httpx.HTTPError` (transport failure, or the `HTTPStatusError` raised by
`raise_for_status` on a non-2xx status) a 502 whose detail embeds `str(e)` —
for a status error we render that message from the status code; a JSON decode
failure is not an `httpx.HTTPError`, so it escapes the handler.  On success,
when the parsed body has a `"data"` key holding a list, the two hardcoded
models are appended to it in place (`extend`); `extend` on a non-list raises
`AttributeError`, which escapes the handler. -/
def list_models (apiKey : Option String) (upstream : UpstreamResult) : HandlerResult :=
  match apiKey with
  | none => .httpError 401 "OPENAI_API_KEY not set"
  | some _ =>
    match upstream with
    | .transportError msg =>
      .httpError 502 ("Error fetching models from OpenAI: " ++ msg)
    | .response status _text body =>
      if isSuccessStatus status then
        match body with
        | .error e => .uncaught e
        | .ok models_data =>
          match assocGet "data" models_data with
          | some (.arr l) =>
            .json 200 (.obj (setKey "data" (.arr (l ++ custom_models)) models_data))
          | some _ => .uncaught "AttributeError: object has no attribute extend"
          | none => .json 200 (.obj models_data)
      else
        .httpError 502 ("Error fetching models from OpenAI: HTTPStatusError " ++ toString status)

/-- The `is_streaming = body.get("stream", False)` flag of `chat_completions`
(line 165), including Python truthiness of the stored value. -/
def isStreamingOf (body : JsonObj) : Bool :=
  match assocGet "stream" body with
  | some v => jsonTruthy v
  | none => false

/-- The `use_responses_api = model in MODEL_MAPPING` flag (lines 164, 170),
where `model = body.get("model", "")`.  The default `""` is not a mapping key,
and a non-string hashable value never equals the string keys. -/
def useResponsesApiOf (body : JsonObj) : Bool :=
  match assocGet "model" body with
  | some (.str s) => (assocGet s MODEL_MAPPING).isSome
  | some _ => false
  | none => false

/-- `chat_completions` (lines 150-234).  Parameters: the configured API key,
the inbound body (`await request.json()`, whose failure carries a message),
and the upstream's behaviour for a streaming call (`streamUp`) and for a
buffered POST (`postUp`) — each handler invocation performs at most one of
the two calls, and at most once.  Control flow from the source:
* no API key → `HTTPException 401` (before the body is read);
* body parse failure → `except Exception` → 500 `Internal error: …`;
* streaming → the handler returns a `StreamingResponse` (status 200, the
  framework default) immediately; the generator runs afterwards, outside the
  handler's `try`, so its `raise_for_status` cannot change the HTTP status;
* buffered transport failure → an `httpx.TransportError`, which is not an
  `httpx.HTTPStatusError`, so it falls to `except Exception` → 500;
* buffered non-2xx → `raise_for_status` raises `HTTPStatusError` →
  `HTTPException` with the upstream status and the upstream body text;
* buffered 2xx with unparseable JSON → `except Exception` → 500;
* otherwise a 200 JSON response, run through
  `convert_responses_to_chat_format` when `use_responses_api` is set. -/
def chat_completions (apiKey : Option String) (rawBody : Except String JsonObj)
    (streamUp : UpstreamStreamResponse) (postUp : UpstreamResult) : HandlerResult :=
  match apiKey with
  | none => .httpError 401 "OPENAI_API_KEY not set"
  | some _ =>
    match rawBody with
    | .error e => .httpError 500 ("Internal error: " ++ e)
    | .ok body =>
      if isStreamingOf body then
        .streaming 200 (stream_generator streamUp)
      else
        match postUp with
        | .transportError msg => .httpError 500 ("Internal error: " ++ msg)
        | .response status text upBody =>
          if isSuccessStatus status then
            match upBody with
            | .error e => .httpError 500 ("Internal error: " ++ e)
            | .ok result =>
              .json 200 (.obj (if useResponsesApiOf body then
                convert_responses_to_chat_format result else result))
          else
            .httpError status ("OpenAI API error: " ++ text)

/-! ## Dictionary lemmas -/

/-- Looking up the key just assigned yields the assigned value. -/
theorem assocGet_setKey_self {α : Type} (k : String) (v : α) (d : List (String × α)) :
    assocGet k (setKey k v d) = some v := by
  induction d with
  | nil => simp [setKey, assocGet]
  | cons p rest ih =>
    obtain ⟨k', v'⟩ := p
    by_cases h : k' = k
    · simp [setKey, assocGet, h]
    · simp [setKey, assocGet, h, ih]

/-- Assignment to one key leaves lookups of every other key unchanged. -/
theorem assocGet_setKey_ne {α : Type} {k k' : String} (v : α) (d : List (String × α))
    (h : k ≠ k') : assocGet k (setKey k' v d) = assocGet k d := by
  induction d with
  | nil => simp [setKey, assocGet, Ne.symm h]
  | cons p rest ih =>
    obtain ⟨k₀, v₀⟩ := p
    by_cases h₀ : k₀ = k'
    · subst h₀
      simp [setKey, assocGet, Ne.symm h]
    · simp [setKey, assocGet, h₀, ih]

/-- Assigning to a key that is already present preserves the key sequence. -/
theorem setKey_keys {α : Type} {k : String} {w : α} (v : α) {d : List (String × α)}
    (h : assocGet k d = some w) :
    (setKey k v d).map Prod.fst = d.map Prod.fst := by
  induction d with
  | nil => simp [assocGet] at h
  | cons p rest ih =>
    obtain ⟨k₀, v₀⟩ := p
    by_cases h₀ : k₀ = k
    · simp [setKey, h₀]
    · simp only [assocGet, if_neg h₀] at h
      simp [setKey, h₀, ih h]

/-- Re-assigning a key its current value is a no-op on the dict. -/
theorem setKey_self {α : Type} {k : String} {v : α} {d : List (String × α)}
    (h : assocGet k d = some v) : setKey k v d = d := by
  induction d with
  | nil => simp [assocGet] at h
  | cons p rest ih =>
    obtain ⟨k₀, v₀⟩ := p
    by_cases h₀ : k₀ = k
    · simp only [assocGet, if_pos h₀] at h
      cases h
      simp [setKey, h₀]
    · simp only [assocGet, if_neg h₀] at h
      simp [setKey, h₀, ih h]

/-- The chunk loop is exactly a filter keeping the non-empty chunks. -/
theorem relayChunks_eq_filter (chunks : List (List Nat)) :
    relayChunks chunks = chunks.filter (fun c => !c.isEmpty) := by
  induction chunks with
  | nil => simp [relayChunks]
  | cons c rest ih =>
    by_cases h : c.isEmpty
    · simp [relayChunks, h, List.filter, ih]
    · simp [relayChunks, h, List.filter, ih]

/-! ## Claim theorems -/

/-- C5: `map_model_name` is a pure total function on strings: for every key
of `MODEL_MAPPING` it returns exactly the mapped value, and for every
non-key it returns its argument unchanged.  Totality (never fails, never
rejects) is inherent: it is a total Lean function translated from
`MODEL_MAPPING.get(model, model)`, which has no failure mode. -/
theorem map_model_name_lookup_spec (name : String) :
    (∀ v, assocGet name MODEL_MAPPING = some v → map_model_name name = v)
    ∧ (assocGet name MODEL_MAPPING = none → map_model_name name = name) := by
  constructor
  · intro v hv
    simp [map_model_name, hv]
  · intro hn
    simp [map_model_name, hn]

theorem map_model_name_lookup_spec_witness :
    assocGet "gpt-4.1" MODEL_MAPPING = some "gpt-4.1"
    ∧ map_model_name "gpt-4.1" = "gpt-4.1"
    ∧ assocGet "unknown-model" MODEL_MAPPING = none
    ∧ map_model_name "unknown-model" = "unknown-model" :=
  ⟨rfl, (map_model_name_lookup_spec "gpt-4.1").1 "gpt-4.1" rfl,
   rfl, (map_model_name_lookup_spec "unknown-model").2 rfl⟩

/-- C10: every key of `MODEL_MAPPING` is mapped to itself, so
`map_model_name` is the identity on all strings, and consequently
`convert_chat_to_responses_format` returns every request body unchanged —
the advertised model remapping is currently a no-op. -/
theorem model_remapping_is_noop :
    (∀ s : String, map_model_name s = s)
    ∧ (∀ body : JsonObj, convert_chat_to_responses_format body = body) := by
  have hid : ∀ s : String, map_model_name s = s := by
    intro s
    by_cases h1 : s = "chatgpt-4o-latest"
    · subst h1; rfl
    by_cases h2 : s = "gpt-4.1"
    · subst h2; rfl
    by_cases h3 : s = "gpt-5.2-chat-latest"
    · subst h3; rfl
    have hn : assocGet s MODEL_MAPPING = none := by
      simp [ MODEL_MAPPING, assocGet, Ne.symm h1, Ne.symm h2, Ne.symm h3]
    simp [map_model_name, hn]
  refine ⟨hid, fun body => ?_⟩
  unfold convert_chat_to_responses_format
  cases hm : assocGet "model" body with
  | none => rfl
  | some v =>
    have hv : mapModelValue v = v := by
      cases v <;> simp [mapModelValue, hid]
    show setKey "model" (mapModelValue v) body = body
    rw [hv, setKey_self hm]

/-- C8: the response translator is idempotent, and any object already
containing a top-level `"choices"` key is returned unchanged.  (In the
current code both branches return the input, so the function is the
identity and both properties hold trivially.) -/
theorem convert_responses_idempotent :
    (∀ x : JsonObj, convert_responses_to_chat_format (convert_responses_to_chat_format x)
        = convert_responses_to_chat_format x)
    ∧ (∀ x : JsonObj, containsKey "choices" x = true →
        convert_responses_to_chat_format x = x) := by
  have hid : ∀ x : JsonObj, convert_responses_to_chat_format x = x := by
    intro x
    simp [convert_responses_to_chat_format]
  exact ⟨fun x => by rw [hid, hid], fun x _ => hid x⟩

theorem convert_responses_idempotent_witness :
    containsKey "choices" [("choices", Json.arr [])] = true
    ∧ convert_responses_to_chat_format [("choices", Json.arr [])]
        = [("choices", Json.arr [])] :=
  ⟨rfl, convert_responses_idempotent.2 [("choices", Json.arr [])] rfl⟩

/-- C1: the request translator preserves every key-value pair other than
`"model"`, rewrites the `"model"` value (whenever present) through
`map_model_name` (lifted to JSON values by `mapModelValue`), and adds no
keys (the key sequence is unchanged).  Non-mutation of the input is inherent
to the embedding: the source operates on `chat_request.copy()` and never
writes to its argument. -/
theorem convert_chat_request_translation (body : JsonObj) :
    (∀ k : String, k ≠ "model" →
        assocGet k (convert_chat_to_responses_format body) = assocGet k body)
    ∧ assocGet "model" (convert_chat_to_responses_format body)
        = (assocGet "model" body).map mapModelValue
    ∧ (convert_chat_to_responses_format body).map Prod.fst = body.map Prod.fst := by
  unfold convert_chat_to_responses_format
  cases hm : assocGet "model" body with
  | none => exact ⟨fun k hk => rfl, by simp [hm], rfl⟩
  | some v =>
    refine ⟨fun k hk => assocGet_setKey_ne _ _ hk, ?_, setKey_keys _ hm⟩
    simp [assocGet_setKey_self, hm]

theorem convert_chat_request_translation_witness :
    assocGet "temperature" (convert_chat_to_responses_format
      [("model", Json.str "gpt-4.1"), ("temperature", Json.num 1)])
      = some (Json.num 1) :=
  (convert_chat_request_translation
    [("model", Json.str "gpt-4.1"), ("temperature", Json.num 1)]).1
    "temperature" (by decide)

/-- C4: on a 2xx upstream response, the streaming relay's output sequence is
exactly the upstream chunk sequence with the zero-length chunks removed, in
the order received: every non-empty chunk is forwarded exactly once, no empty
chunk is forwarded, nothing is merged or reordered, and the output is a
finite list whenever the upstream sequence is. -/
theorem stream_relay_filters_empty_chunks (status : Nat) (chunks : List (List Nat))
    (h : isSuccessStatus status) :
    stream_generator ⟨status, chunks⟩
      = .ok (chunks.filter (fun c => !c.isEmpty)) := by
  simp [stream_generator, h, relayChunks_eq_filter]

theorem stream_relay_filters_empty_chunks_witness :
    stream_generator ⟨200, [[1], [], [2]]⟩ = .ok [[1], [2]] :=
  (stream_relay_filters_empty_chunks 200 [[1], [], [2]] (by decide)).trans rfl

/-- C7: when the API key is unconfigured, GET `/health` answers 500 with a
detail naming the misconfiguration, and POST `/v1/chat/completions` answers
401 for every inbound body — including unparseable ones, since the rejection
precedes the body read — and for every possible upstream behaviour, so no
outbound call is ever consulted. -/
theorem missing_api_key_rejections :
    health none = .httpError 500 "OPENAI_API_KEY not configured"
    ∧ ∀ (rawBody : Except String JsonObj) (streamUp : UpstreamStreamResponse)
        (postUp : UpstreamResult),
        chat_completions none rawBody streamUp postUp
          = .httpError 401 "OPENAI_API_KEY not set" :=
  ⟨rfl, fun _ _ _ => rfl⟩

/-- C6: for a non-streaming chat completion where the upstream returns a
non-2xx status, the client receives that same status code, with the
upstream's body text embedded in the error detail.  The handler consults
exactly one outbound outcome, so no retry occurs. -/
theorem upstream_status_error_propagated (key : String) (body : JsonObj)
    (streamUp : UpstreamStreamResponse) (status : Nat) (text : String)
    (upBody : Except String JsonObj)
    (hstream : isStreamingOf body = false)
    (hstatus : ¬ isSuccessStatus status) :
    chat_completions (some key) (.ok body) streamUp (.response status text upBody)
      = .httpError status ("OpenAI API error: " ++ text) := by
  simp [chat_completions, hstream, hstatus]

theorem upstream_status_error_propagated_witness :
    chat_completions (some "k") (.ok [("model", Json.str "gpt-4.1")])
      ⟨200, []⟩ (.response 429 "rate limited" (.error "not json"))
      = .httpError 429 ("OpenAI API error: " ++ "rate limited") :=
  upstream_status_error_propagated "k" [("model", Json.str "gpt-4.1")]
    ⟨200, []⟩ 429 "rate limited" (.error "not json") rfl (by decide)

/-- C3 counterexample: at a concrete non-streaming request whose outbound
call fails with a transport error, the client response is a 500, not the 502
the claim states: `chat_completions` has no `except httpx.HTTPError` clause
(unlike `list_models`), so an `httpx.TransportError` — which is not an
`httpx.HTTPStatusError` — falls to the generic `except Exception` branch. -/
theorem transport_error_not_502 :
    chat_completions (some "k") (.ok [("model", Json.str "gpt-4.1")])
      ⟨200, []⟩ (.transportError "Connection refused")
      = .httpError 500 ("Internal error: " ++ "Connection refused")
    ∧ resultStatus (chat_completions (some "k") (.ok [("model", Json.str "gpt-4.1")])
        ⟨200, []⟩ (.transportError "Connection refused")) ≠ 502 :=
  ⟨rfl, by decide⟩

/-- C3 amended: in non-streaming mode, a transport failure of the outbound
call is answered with HTTP 500 and detail `Internal error: ` followed by the
failure message (not 502 — only GET `/v1/models` maps transport errors to
502), and no retry is attempted: the handler consults exactly one outbound
outcome. -/
theorem transport_error_yields_500 (key : String) (body : JsonObj) (msg : String)
    (streamUp : UpstreamStreamResponse) (hstream : isStreamingOf body = false) :
    chat_completions (some key) (.ok body) streamUp (.transportError msg)
      = .httpError 500 ("Internal error: " ++ msg) := by
  simp [chat_completions, hstream]

theorem transport_error_yields_500_witness :
    chat_completions (some "k") (.ok [("messages", Json.arr [])])
      ⟨200, []⟩ (.transportError "Connection timed out")
      = .httpError 500 ("Internal error: " ++ "Connection timed out") :=
  transport_error_yields_500 "k" [("messages", Json.arr [])] "Connection timed out"
    ⟨200, []⟩ rfl

/-- C2: evaluation at the failing input.  For a streaming request whose
upstream answers 429 before emitting any chunk, the handler returns a
`StreamingResponse` with status 200 — committed before the generator body
runs — and the generator's deferred body computation errors with the
upstream status, forwarding no chunks.  The client therefore sees a
truncated 200 event stream, not an HTTP error response:
`response.raise_for_status()` runs inside the generator, after the handler
(and its `try/except`) has already returned. -/
theorem streaming_upstream_error_truncated_200 :
    chat_completions (some "k")
      (.ok [("model", Json.str "gpt-4.1"), ("stream", Json.bool true)])
      ⟨429, [[101]]⟩ (.transportError "unused")
      = .streaming 200 (.error 429)
    ∧ resultStatus (chat_completions (some "k")
        (.ok [("model", Json.str "gpt-4.1"), ("stream", Json.bool true)])
        ⟨429, [[101]]⟩ (.transportError "unused")) = 200 :=
  ⟨rfl, rfl⟩

/-- C9: for GET `/v1/models` with an API key and a 2xx upstream response
whose parsed body carries a `"data"` list of n models, the client receives a
200 whose body is the same object with `"data"` replaced by that list
followed by exactly the two hardcoded custom entries, so the resulting list
has length n + 2. -/
theorem list_models_appends_two_customs (key : String) (models_data : JsonObj)
    (l : List Json) (status : Nat) (text : String)
    (hstatus : isSuccessStatus status)
    (hdata : assocGet "data" models_data = some (Json.arr l)) :
    list_models (some key) (.response status text (.ok models_data))
      = .json 200 (.obj (setKey "data" (Json.arr (l ++ custom_models)) models_data))
    ∧ (l ++ custom_models).length = l.length + 2 := by
  constructor
  · simp [list_models, hstatus, hdata]
  · simp [custom_models]

theorem list_models_appends_two_customs_witness :
    list_models (some "k") (.response 200 "" (.ok
      [("object", Json.str "list"), ("data", Json.arr [Json.str "m1"])]))
      = .json 200 (.obj [("object", Json.str "list"),
          ("data", Json.arr ([Json.str "m1"] ++ custom_models))])
    ∧ ([Json.str "m1"] ++ custom_models).length = 1 + 2 := by
  have h := list_models_appends_two_customs "k"
    [("object", Json.str "list"), ("data", Json.arr [Json.str "m1"])]
    [Json.str "m1"] 200 "" (by decide) rfl
  exact ⟨h.1.trans rfl, h.2⟩
